import Mathlib

/-!
Verification of the running-time simulator (src/runningtime.py).

The Python program is shallowly embedded over the real numbers: the
per-iteration body of the driver loop becomes the function `step` on an
explicit `SimState` record, and the Python iterator over track sections is
modelled by the list `rest` of not-yet-fetched sections, so that fetching a
section past the end of the list (Python's uncaught `StopIteration`) becomes
the explicit outcome `StepResult.exhausted`.
-/

namespace RunningTime

/-- Driving mode (source line 65): `"Cruise"`, `"Brake"` or `"Power"`. -/
inductive Mode where
  | Brake
  | Cruise
  | Power
deriving DecidableEq

noncomputable section

/-- Maximum speed on straight track, used as infinity (source line 38). -/
def LINESPEED : ℝ := 400/3.6

/-- Length of the train in metres (source line 39). -/
def TRAINLENGTH : ℝ := 264

/-- Safety margin below the speed limit when hitting a curve (source line 40). -/
def LEEWAY : ℝ := 1.0

/-- Nominal acceleration for each mode (source line 67). -/
def accel : Mode → ℝ
  | .Brake => -0.85
  | .Cruise => 0.0
  | .Power => 0.85

/-- Lookahead solver (source lines 70-115): the speed the train would have on
reaching a boundary `distance` away under full braking from `speed`, obtained
from the smaller root of `0.425*t*t - speed*t + distance = 0`; `0` when the
quadratic has no real root. -/
def residual_speed (speed distance : ℝ) : ℝ :=
  let a : ℝ := 0.425
  let b : ℝ := -speed
  let c : ℝ := distance
  let discriminant : ℝ := b*b - 4*a*c
  if discriminant < 0 then 0.0
  else
    let t : ℝ := (-b - Real.sqrt discriminant) / (2 * a)
    speed - 0.85*t

/-- Simulator state, the mutable top-level variables of source lines 59-66.
`cursection`/`curspeed` and `nextsection`/`nextspeed` are the unpacked current
and next `(length, limit)` pairs; `rest` is the tail of the section iterator
(the sections not yet fetched by `next(section)`). -/
structure SimState where
  t : ℝ
  prevspeed : ℝ
  cursection : ℝ
  curspeed : ℝ
  nextsection : ℝ
  nextspeed : ℝ
  posn : ℝ
  mode : Mode
  speed : ℝ
  rest : List (ℝ × ℝ)

/-- The speed cap checked at the top of each iteration (source line 134):
`min(curspeed, prevspeed if posn < TRAINLENGTH else LINESPEED)`. -/
def maxspeed (s : SimState) : ℝ :=
  min s.curspeed (if s.posn < TRAINLENGTH then s.prevspeed else LINESPEED)

/-- Assumed distance travelled before full braking power is reached, per mode
(source lines 140-160). -/
def distance_to_full_braking_power (mode : Mode) (speed : ℝ) : ℝ :=
  match mode with
  | .Brake => 2 * (speed - 0.85/2)
  | .Power => (speed + 0.85/2) + 4 * (speed + 0.85 + 0.85/2)
  | .Cruise => speed + 2 * (speed - 0.85/2)

/-- Assumed speed at the moment full braking power is reached, per mode
(source lines 140-160). -/
def speed_full_brake (mode : Mode) (speed : ℝ) : ℝ :=
  match mode with
  | .Brake => speed - 0.85
  | .Power => speed + 0.85
  | .Cruise => speed - 0.85

/-- Metres left in the current section before the next boundary, after the
assumed braking ramp (source line 162); may be negative. -/
def distance_left (s : SimState) : ℝ :=
  s.cursection - s.posn - distance_to_full_braking_power s.mode s.speed

/-- The mode decision of source lines 166-179. -/
def nextmode (s : SimState) : Mode :=
  if s.mode = Mode.Brake then
    (if s.speed < s.nextspeed + 0.85 then Mode.Cruise else Mode.Brake)
  else if residual_speed (speed_full_brake s.mode s.speed) (distance_left s)
          ≥ s.nextspeed - LEEWAY ∧ s.speed > s.nextspeed - LEEWAY then
    (if s.mode = Mode.Power then Mode.Cruise else Mode.Brake)
  else if s.speed < maxspeed s then
    (if s.mode = Mode.Cruise ∧ s.speed ≥ maxspeed s - 8.5 then Mode.Cruise
     else if s.mode = Mode.Brake then Mode.Cruise else Mode.Power)
  else Mode.Cruise

/-- Step duration: 2 seconds on a mode change, else 1 (source lines 180-184). -/
def advance (s : SimState) : ℝ :=
  if s.mode ≠ nextmode s then 2.0 else 1.0

/-- Maximum achievable power-mode acceleration at a given speed
(source lines 188-191). -/
def maxpower (speed : ℝ) : ℝ :=
  if speed > 200/3.6 then
    Real.sqrt ((1280/3.6 + speed) * (400/3.6 - speed)) / (speed + 440/3.6)
  else 0.85

/-- Blended acceleration applied over the step (source line 194). -/
def actual_accel (s : SimState) : ℝ :=
  (min (accel s.mode) (maxpower s.speed) + min (accel (nextmode s)) (maxpower s.speed)) / 2

/-- Distance covered during the step (source line 196). -/
def step_distance (s : SimState) : ℝ :=
  advance s * (s.speed + actual_accel s / 2)

/-- Outcome of one pass through the loop body: derailment report and `break`
(lines 135-137), halt report and `break` (lines 198-205), uncaught
`StopIteration` from `next(section)` past the sentinel (line 213), or the
updated state for the next iteration. -/
inductive StepResult where
  | derailed (t speed maxspeed : ℝ)
  | halted (t posn : ℝ)
  | exhausted
  | next (s : SimState)

/-- One pass through the body of the driver loop (source lines 118-217). -/
def step (s : SimState) : StepResult :=
  if s.speed > maxspeed s then
    .derailed s.t s.speed (maxspeed s)
  else if s.speed + actual_accel s < 0 then
    .halted (s.t + s.speed / -(actual_accel s) * advance s)
      (s.posn + step_distance s * (s.speed / -(actual_accel s) * advance s) / advance s)
  else if s.posn + step_distance s > s.cursection then
    match s.rest with
    | [] => .exhausted
    | sec :: rest' =>
        .next { t := s.t + advance s
                prevspeed := s.prevspeed
                cursection := s.nextsection
                curspeed := s.nextspeed
                nextsection := sec.1
                nextspeed := sec.2
                posn := s.posn - s.cursection + step_distance s
                mode := nextmode s
                speed := s.speed + actual_accel s * advance s
                rest := rest' }
  else
    .next { s with
            t := s.t + advance s
            posn := s.posn + step_distance s
            speed := s.speed + actual_accel s * advance s
            mode := nextmode s }

/-- The input stage (source lines 44-56): each entered pair becomes
`(length, min(limit/3.6, LINESPEED))` and the zero-length zero-speed sentinel
section is appended. -/
def mkTrack (input : List (ℕ × ℕ)) : List (ℝ × ℝ) :=
  (input.map fun p => ((p.1 : ℝ), min ((p.2 : ℝ) / 3.6) LINESPEED)) ++ [(0, 0)]

/-- Simulator initialisation (source lines 59-66): the first two sections are
pulled from the iterator, the train starts at rest in `Cruise` with
`prevspeed = LINESPEED`. `none` when the track has fewer than two
sections. -/
def initState (sections : List (ℝ × ℝ)) : Option SimState :=
  match sections with
  | c :: n :: rest =>
      some { t := 0, prevspeed := LINESPEED,
             cursection := c.1, curspeed := c.2,
             nextsection := n.1, nextspeed := n.2,
             posn := 0, mode := Mode.Cruise, speed := 0, rest := rest }
  | _ => none

/-- `n` iterations of the driver loop from `s0`; `none` once a terminal
outcome (derailment, halt or exhausted track) has been reached. -/
def steps (s0 : SimState) : ℕ → Option SimState
  | 0 => some s0
  | n + 1 =>
      match steps s0 n with
      | some s =>
          match step s with
          | .next s' => some s'
          | _ => none
      | none => none

/-- The driver loop eventually leaves its while-true loop: some iterate's step
is not a continuation. -/
def LoopTerminates (s0 : SimState) : Prop :=
  ∃ n s', steps s0 n = some s' ∧ ∀ s'', step s' ≠ StepResult.next s''

/-- A mid-run state about to cross a section boundary: cruising at 10 m/s,
5 m from the end of a 12 m/s section, next section 7 m long with limit
50 m/s. -/
def s4 : SimState :=
  { t := 0
    prevspeed := 12
    cursection := 5
    curspeed := 12
    nextsection := 7
    nextspeed := 50
    posn := 0
    mode := Mode.Cruise
    speed := 10
    rest := [((0:ℝ), (0:ℝ))] }

/-- The state the code actually produces from `s4`. -/
def s4next : SimState :=
  { t := 1
    prevspeed := 12
    cursection := 7
    curspeed := 50
    nextsection := 0
    nextspeed := 0
    posn := 5
    mode := Mode.Cruise
    speed := 10
    rest := [] }

/-- A mid-run state initiating braking while still slow: cruising at 0.5 m/s
at the start of a 100 m section whose successor is the sentinel. -/
def s5 : SimState :=
  { t := 0
    prevspeed := 10
    cursection := 100
    curspeed := 10
    nextsection := 0
    nextspeed := 0
    posn := 0
    mode := Mode.Cruise
    speed := 0.5
    rest := [] }

/-- The state the code actually produces from `s5`: the train continues with
a negative speed. -/
def s5next : SimState :=
  { t := 2
    prevspeed := 10
    cursection := 100
    curspeed := 10
    nextsection := 0
    nextspeed := 0
    posn := 0.575
    mode := Mode.Brake
    speed := -0.35
    rest := [] }

/-- Like `s5` but slow enough (0.2 m/s) that the one-second projection also
goes negative, so the code halts. -/
def s5w : SimState :=
  { t := 0
    prevspeed := 10
    cursection := 100
    curspeed := 10
    nextsection := 0
    nextspeed := 0
    posn := 0.575
    mode := Mode.Cruise
    speed := 0.2
    rest := [] }

/-- A braking state whose step both crosses the section boundary and brings
the speed projection below zero: 0.2 m/s, already 10 m into a 9 m section
(position may transiently exceed the section length within a step). -/
def s6 : SimState :=
  { t := 0
    prevspeed := 10
    cursection := 9
    curspeed := 10
    nextsection := 0
    nextspeed := 0
    posn := 10
    mode := Mode.Brake
    speed := 0.2
    rest := [] }

/-- A state with the brakes fully engaged, used to evaluate the Brake-mode
lookahead inputs. -/
def s9 : SimState :=
  { t := 0
    prevspeed := 20
    cursection := 100
    curspeed := 20
    nextsection := 50
    nextspeed := 5
    posn := 0
    mode := Mode.Brake
    speed := 10
    rest := [] }

/-- The state reached after `n` iterations on the track
`[(100 m, 30 km/h), (100 m, 400 km/h)]`: the train never moves, because the
8.5-unit dwell margin stops it from ever applying power, and only the clock
advances. -/
def sC1 (n : ℕ) : SimState :=
  { t := n
    prevspeed := 1000/9
    cursection := 100
    curspeed := 25/3
    nextsection := 100
    nextspeed := 1000/9
    posn := 0
    mode := Mode.Cruise
    speed := 0
    rest := [((0:ℝ), (0:ℝ))] }

/-- The state of the run on the accepted track
`[(1100 m, 153 km/h), (1000 m, 400 km/h)]` right after the crossing into the
second section (iteration 52, t = 53): the Power-to-Cruise back-off step
overshot the first section's 42.5 m/s limit to 43.35 m/s while crossing, and
the train is 47.925 m into the new section, i.e. less than a train length. -/
def sC3 : SimState :=
  { t := 53
    prevspeed := 1000/9
    cursection := 1000
    curspeed := 1000/9
    nextsection := 0
    nextspeed := 0
    posn := 47.925
    mode := Mode.Cruise
    speed := 43.35
    rest := [] }

/-- The state the code actually produces from `sC3`: it keeps simulating. -/
def sC3next : SimState :=
  { t := 55
    prevspeed := 1000/9
    cursection := 1000
    curspeed := 1000/9
    nextsection := 0
    nextspeed := 0
    posn := 134.2
    mode := Mode.Brake
    speed := 42.5
    rest := [] }

lemma residual_speed_def (v d : ℝ) :
    residual_speed v d =
      if -v * -v - 4 * 0.425 * d < 0 then 0.0
      else v - 0.85 * ((-(-v) - Real.sqrt (-v * -v - 4 * 0.425 * d)) / (2 * 0.425)) := rfl

lemma residual_speed_eq (v d : ℝ) :
    residual_speed v d =
      if v * v - 1.7 * d < 0 then 0 else Real.sqrt (v * v - 1.7 * d) := by
  have h : -v * -v - 4 * 0.425 * d = v * v - 1.7 * d := by ring
  rw [residual_speed_def, h]
  rcases lt_or_le (v * v - 1.7 * d) 0 with hlt | hle
  · rw [if_pos hlt, if_pos hlt]
    norm_num
  · rw [if_neg (not_lt.mpr hle), if_neg (not_lt.mpr hle)]
    have h2 : (2 : ℝ) * 0.425 = 0.85 := by norm_num
    rw [h2, neg_neg]
    field_simp

lemma residual_speed_nonneg (v d : ℝ) : 0 ≤ residual_speed v d := by
  rw [residual_speed_eq]
  split
  · exact le_refl 0
  · exact Real.sqrt_nonneg _

/-- Claim C7: the lookahead solver computes the discriminant
`D = v*v - 2*0.85*d`; if `D < 0` it returns `0` without signalling an error,
and if `D ≥ 0` it takes the smaller root `t = (v - sqrt D) / 0.85` of the
braking quadratic `0.425*t^2 - v*t + d = 0` and returns `v - 0.85*t`. -/
theorem C7_lookahead_quadratic (v d : ℝ) :
    (v * v - 1.7 * d < 0 → residual_speed v d = 0) ∧
    (0 ≤ v * v - 1.7 * d →
      0.425 * ((v - Real.sqrt (v * v - 1.7 * d)) / 0.85) ^ 2
          - v * ((v - Real.sqrt (v * v - 1.7 * d)) / 0.85) + d = 0 ∧
      (∀ u : ℝ, 0.425 * u ^ 2 - v * u + d = 0 →
          (v - Real.sqrt (v * v - 1.7 * d)) / 0.85 ≤ u) ∧
      residual_speed v d = v - 0.85 * ((v - Real.sqrt (v * v - 1.7 * d)) / 0.85)) := by
  constructor
  · intro h
    rw [residual_speed_eq, if_pos h]
  · intro h
    have hss : Real.sqrt (v * v - 1.7 * d) * Real.sqrt (v * v - 1.7 * d)
        = v * v - 1.7 * d := Real.mul_self_sqrt h
    have hs0 : 0 ≤ Real.sqrt (v * v - 1.7 * d) := Real.sqrt_nonneg _
    refine ⟨?_, ?_, ?_⟩
    · field_simp
      nlinarith [hss]
    · intro u hu
      have hfac : (0.85 * u - (v - Real.sqrt (v * v - 1.7 * d)))
          * (0.85 * u - (v + Real.sqrt (v * v - 1.7 * d))) = 0 := by
        nlinarith [hss, hu]
      have hle : v - Real.sqrt (v * v - 1.7 * d) ≤ 0.85 * u := by
        rcases mul_eq_zero.mp hfac with h1 | h2
        · linarith
        · linarith
      rw [div_le_iff₀ (by norm_num : (0:ℝ) < 0.85)]
      linarith
    · rw [residual_speed_eq, if_neg (not_lt.mpr h)]
      field_simp

/-- Claim C7 witness: concrete evaluations of the lookahead solver through the
two branches of `C7_lookahead_quadratic`. -/
theorem C7_witness : residual_speed 3 10 = 0 ∧ residual_speed 5 0 = 5 := by
  constructor
  · exact (C7_lookahead_quadratic 3 10).1 (by norm_num)
  · have h := ((C7_lookahead_quadratic 5 0).2 (by norm_num)).2.2
    rw [h, show (5 * 5 - 1.7 * 0 : ℝ) = 5 ^ 2 by norm_num,
      Real.sqrt_sq (by norm_num : (0:ℝ) ≤ 5)]
    norm_num

/-- Claim C8: for any `speed ≥ 0` and `distance ≥ 0` the lookahead solver
returns a value in the closed interval `[0, speed]`. -/
theorem C8_residual_range (v d : ℝ) (hv : 0 ≤ v) (hd : 0 ≤ d) :
    0 ≤ residual_speed v d ∧ residual_speed v d ≤ v := by
  refine ⟨residual_speed_nonneg v d, ?_⟩
  rw [residual_speed_eq]
  split
  · exact hv
  · calc Real.sqrt (v * v - 1.7 * d) ≤ Real.sqrt (v * v) :=
          Real.sqrt_le_sqrt (by nlinarith)
      _ = v := Real.sqrt_mul_self hv

/-- Claim C8 witness: the interval bound at the concrete input `(3, 10)`. -/
theorem C8_witness :
    0 ≤ (3:ℝ) ∧ 0 ≤ (10:ℝ) ∧ 0 ≤ residual_speed 3 10 ∧ residual_speed 3 10 ≤ 3 := by
  refine ⟨by norm_num, by norm_num, ?_⟩
  exact C8_residual_range 3 10 (by norm_num) (by norm_num)

/-- Claim C10: `residual_speed` is a total function whose result is never
negative for any real arguments (including negative distances and brake-start
speeds), and in exact real arithmetic it equals `sqrt (v*v - 1.7*d)` whenever
the discriminant `v*v - 1.7*d` is non-negative, and `0` otherwise. -/
theorem C10_residual_total_nonneg (v d : ℝ) :
    0 ≤ residual_speed v d ∧
    residual_speed v d =
      if v * v - 1.7 * d < 0 then 0 else Real.sqrt (v * v - 1.7 * d) :=
  ⟨residual_speed_nonneg v d, residual_speed_eq v d⟩

lemma s4_nextmode : nextmode s4 = Mode.Cruise := by
  unfold nextmode
  norm_num [s4, maxspeed, LEEWAY, TRAINLENGTH, LINESPEED]

lemma s4_advance : advance s4 = 1 := by
  unfold advance
  rw [s4_nextmode]
  norm_num [s4]

lemma s4_accel : actual_accel s4 = 0 := by
  unfold actual_accel
  rw [s4_nextmode]
  norm_num [s4, accel, maxpower, min_def]

lemma s4_dist : step_distance s4 = 10 := by
  unfold step_distance
  rw [s4_advance, s4_accel]
  norm_num [s4]

lemma s4_step : step s4 = StepResult.next s4next := by
  have hd : ¬ s4.speed > maxspeed s4 := by
    norm_num [s4, maxspeed, TRAINLENGTH, LINESPEED]
  have hh : ¬ s4.speed + actual_accel s4 < 0 := by
    rw [s4_accel]; norm_num [s4]
  have hc : s4.posn + step_distance s4 > s4.cursection := by
    rw [s4_dist]; norm_num [s4]
  unfold step
  rw [if_neg hd, if_neg hh, if_pos hc]
  rw [show s4.rest = ((0:ℝ), (0:ℝ)) :: [] from rfl]
  rw [s4_advance, s4_accel, s4_dist, s4_nextmode]
  norm_num [s4, s4next]

lemma advance_pos (s : SimState) : 0 < advance s := by
  unfold advance
  split <;> norm_num

lemma s5_nextmode : nextmode s5 = Mode.Brake := by
  have h2 : residual_speed (speed_full_brake s5.mode s5.speed) (distance_left s5)
      ≥ s5.nextspeed - LEEWAY ∧ s5.speed > s5.nextspeed - LEEWAY := by
    constructor
    · have h := residual_speed_nonneg (speed_full_brake s5.mode s5.speed) (distance_left s5)
      have hn : s5.nextspeed - LEEWAY = -1 := by norm_num [s5, LEEWAY]
      rw [hn]
      linarith
    · norm_num [s5, LEEWAY]
  unfold nextmode
  rw [if_neg (by simp [s5] : ¬ s5.mode = Mode.Brake), if_pos h2,
    if_neg (by simp [s5] : ¬ s5.mode = Mode.Power)]

lemma s5_advance : advance s5 = 2 := by
  unfold advance
  rw [s5_nextmode]
  norm_num [s5]
  decide

lemma s5_accel : actual_accel s5 = -0.425 := by
  unfold actual_accel
  rw [s5_nextmode]
  norm_num [s5, accel, maxpower, min_def]

lemma s5_dist : step_distance s5 = 0.575 := by
  unfold step_distance
  rw [s5_advance, s5_accel]
  norm_num [s5]

lemma s5_step : step s5 = StepResult.next s5next := by
  have hd : ¬ s5.speed > maxspeed s5 := by
    norm_num [s5, maxspeed, TRAINLENGTH, LINESPEED]
  have hh : ¬ s5.speed + actual_accel s5 < 0 := by
    rw [s5_accel]; norm_num [s5]
  have hc : ¬ s5.posn + step_distance s5 > s5.cursection := by
    rw [s5_dist]; norm_num [s5]
  unfold step
  rw [if_neg hd, if_neg hh, if_neg hc, s5_advance, s5_accel, s5_dist, s5_nextmode]
  norm_num [s5, s5next]

lemma s5w_nextmode : nextmode s5w = Mode.Brake := by
  have h2 : residual_speed (speed_full_brake s5w.mode s5w.speed) (distance_left s5w)
      ≥ s5w.nextspeed - LEEWAY ∧ s5w.speed > s5w.nextspeed - LEEWAY := by
    constructor
    · have h := residual_speed_nonneg (speed_full_brake s5w.mode s5w.speed) (distance_left s5w)
      have hn : s5w.nextspeed - LEEWAY = -1 := by norm_num [s5w, LEEWAY]
      rw [hn]
      linarith
    · norm_num [s5w, LEEWAY]
  unfold nextmode
  rw [if_neg (by simp [s5w] : ¬ s5w.mode = Mode.Brake), if_pos h2,
    if_neg (by simp [s5w] : ¬ s5w.mode = Mode.Power)]

lemma s5w_accel : actual_accel s5w = -0.425 := by
  unfold actual_accel
  rw [s5w_nextmode]
  norm_num [s5w, accel, maxpower, min_def]

lemma s6_nextmode : nextmode s6 = Mode.Cruise := by
  unfold nextmode
  norm_num [s6]

lemma s6_advance : advance s6 = 2 := by
  unfold advance
  rw [s6_nextmode]
  norm_num [s6]
  decide

lemma s6_accel : actual_accel s6 = -0.425 := by
  unfold actual_accel
  rw [s6_nextmode]
  norm_num [s6, accel, maxpower, min_def]

lemma s6_dist : step_distance s6 = -0.025 := by
  unfold step_distance
  rw [s6_advance, s6_accel]
  norm_num [s6]

lemma s6_step : step s6 = StepResult.halted (16/17) (849/85) := by
  have hd : ¬ s6.speed > maxspeed s6 := by
    norm_num [s6, maxspeed, TRAINLENGTH, LINESPEED]
  have hh : s6.speed + actual_accel s6 < 0 := by
    rw [s6_accel]; norm_num [s6]
  unfold step
  rw [if_neg hd, if_pos hh, s6_accel, s6_advance, s6_dist]
  norm_num [s6]

lemma sC3_nextmode : nextmode sC3 = Mode.Brake := by
  have h2 : residual_speed (speed_full_brake sC3.mode sC3.speed) (distance_left sC3)
      ≥ sC3.nextspeed - LEEWAY ∧ sC3.speed > sC3.nextspeed - LEEWAY := by
    constructor
    · have h := residual_speed_nonneg (speed_full_brake sC3.mode sC3.speed) (distance_left sC3)
      have hn : sC3.nextspeed - LEEWAY = -1 := by norm_num [sC3, LEEWAY]
      rw [hn]
      linarith
    · norm_num [sC3, LEEWAY]
  unfold nextmode
  rw [if_neg (by simp [sC3] : ¬ sC3.mode = Mode.Brake), if_pos h2,
    if_neg (by simp [sC3] : ¬ sC3.mode = Mode.Power)]

lemma sC3_advance : advance sC3 = 2 := by
  unfold advance
  rw [sC3_nextmode]
  norm_num [sC3]
  decide

lemma sC3_accel : actual_accel sC3 = -0.425 := by
  unfold actual_accel
  rw [sC3_nextmode]
  norm_num [sC3, accel, maxpower, min_def]

lemma sC3_dist : step_distance sC3 = 86.275 := by
  unfold step_distance
  rw [sC3_advance, sC3_accel]
  norm_num [sC3]

lemma sC3_step : step sC3 = StepResult.next sC3next := by
  have hd : ¬ sC3.speed > maxspeed sC3 := by
    norm_num [sC3, maxspeed, TRAINLENGTH, LINESPEED]
  have hh : ¬ sC3.speed + actual_accel sC3 < 0 := by
    rw [sC3_accel]; norm_num [sC3]
  have hc : ¬ sC3.posn + step_distance sC3 > sC3.cursection := by
    rw [sC3_dist]; norm_num [sC3]
  unfold step
  rw [if_neg hd, if_neg hh, if_neg hc, sC3_advance, sC3_accel, sC3_dist, sC3_nextmode]
  norm_num [sC3, sC3next]

lemma sC1_nextmode (n : ℕ) : nextmode (sC1 n) = Mode.Cruise := by
  unfold nextmode
  norm_num [sC1, maxspeed, LEEWAY, TRAINLENGTH, LINESPEED, min_def]

lemma sC1_advance (n : ℕ) : advance (sC1 n) = 1 := by
  unfold advance
  rw [sC1_nextmode]
  norm_num [sC1]

lemma sC1_accel (n : ℕ) : actual_accel (sC1 n) = 0 := by
  unfold actual_accel
  rw [sC1_nextmode]
  norm_num [sC1, accel, maxpower, min_def]

lemma sC1_dist (n : ℕ) : step_distance (sC1 n) = 0 := by
  unfold step_distance
  rw [sC1_advance, sC1_accel]
  norm_num [sC1]

lemma sC1_step (n : ℕ) : step (sC1 n) = StepResult.next (sC1 (n + 1)) := by
  have hd : ¬ (sC1 n).speed > maxspeed (sC1 n) := by
    norm_num [sC1, maxspeed, TRAINLENGTH, LINESPEED, min_def]
  have hh : ¬ (sC1 n).speed + actual_accel (sC1 n) < 0 := by
    rw [sC1_accel]; norm_num [sC1]
  have hc : ¬ (sC1 n).posn + step_distance (sC1 n) > (sC1 n).cursection := by
    rw [sC1_dist]; norm_num [sC1]
  unfold step
  rw [if_neg hd, if_neg hh, if_neg hc, sC1_advance, sC1_accel, sC1_dist, sC1_nextmode]
  norm_num [sC1]

lemma sC1_steps (n : ℕ) : steps (sC1 0) n = some (sC1 n) := by
  induction n with
  | zero => rfl
  | succ k ih => simp only [steps, ih, sC1_step k]

/-- Claim C1 (amended): the driver loop is not guaranteed to terminate. On the
accepted track `[(100 m, 30 km/h), (100 m, 400 km/h)]` every iterate of the
loop is the initial state with only the clock advanced (the 8.5-unit dwell
margin keeps the stationary train in `Cruise` forever), so every step is a
continuation and the loop never reaches Halt or Derailment. -/
theorem C1_loop_not_always_terminating (n : ℕ) :
    steps (sC1 0) n = some (sC1 n) ∧ step (sC1 n) = StepResult.next (sC1 (n + 1)) :=
  ⟨sC1_steps n, sC1_step n⟩

/-- Claim C1 counterexample: the track `[(100 m, 30 km/h), (100 m, 400 km/h)]`
is accepted by the input stage, initialises to `sC1 0`, and the driver loop
never terminates on it, refuting the claim that the loop terminates for every
accepted finite track description. -/
theorem C1_counterexample :
    initState (mkTrack [(100, 30), (100, 400)]) = some (sC1 0) ∧
    ¬ LoopTerminates (sC1 0) := by
  constructor
  · norm_num [initState, mkTrack, sC1, LINESPEED, min_def]
  · rintro ⟨n, s', hs, hterm⟩
    rw [sC1_steps n] at hs
    injection hs with h
    cases h
    exact hterm _ (sC1_step n)

/-- Claim C2 (evaluation of the code): `prevspeed` is assigned once at
initialisation and never reassigned by the loop body — in particular the
section-crossing handler does not update it to the limit of the crossed
section, contradicting the claim and the source's own corollary
(source lines 25-28). -/
theorem C2_prevspeed_constant (s s' : SimState) (h : step s = StepResult.next s') :
    s'.prevspeed = s.prevspeed := by
  unfold step at h
  split_ifs at h
  · cases hr : s.rest with
    | nil =>
        rw [hr] at h
        exact absurd h (by simp)
    | cons sec rest' =>
        rw [hr] at h
        injection h with h2
        subst h2
        rfl
  · injection h with h2
    subst h2
    rfl

/-- Claim C2 witness: the crossing step from `s4` into the next section leaves
`prevspeed` unchanged. -/
theorem C2_witness : s4next.prevspeed = s4.prevspeed :=
  C2_prevspeed_constant s4 s4next s4_step

/-- Claim C3 (evaluation of the code at the failing input): `sC3` is the state
of the run on the accepted track `[(1100 m, 153 km/h), (1000 m, 400 km/h)]`
just after crossing into the second section. The speed, 43.35 m/s, exceeds the
42.5 m/s limit of the section just left while `posn < TRAINLENGTH`, so the
claimed rule `maxSafeSpeed = min(currentLimit, prev-section limit)` demands an
immediate Derailment; the code instead continues (because the `prevspeed`
variable still holds its initial `LINESPEED` value, never having been
updated). -/
theorem C3_no_derailment_beyond_prev_limit :
    step sC3 = StepResult.next sC3next ∧
    (42.5:ℝ) < sC3.speed ∧ sC3.posn < TRAINLENGTH ∧ sC3.speed ≤ sC3.curspeed := by
  refine ⟨sC3_step, ?_, ?_, ?_⟩ <;> norm_num [sC3, TRAINLENGTH]

/-- Claim C4 counterexample: at the crossing step from `s4` the exact crossing
instant (linear interpolation of distance over the step) is `t + 0.5`, but the
code advances the clock by the full step to `t + 1` and the position by the
full distance (rebased to 5 m into the new section instead of 0 m), refuting
the claim that the time and position advance are truncated to the crossing
instant. -/
theorem C4_counterexample :
    step s4 = StepResult.next s4next ∧
    s4next.t = s4.t + advance s4 ∧
    s4.t + (s4.cursection - s4.posn) / step_distance s4 * advance s4 = 0.5 ∧
    s4next.t = 1 ∧ ((1:ℝ) ≠ 0.5) ∧ s4next.posn = 5 ∧ ((5:ℝ) ≠ 0) := by
  refine ⟨s4_step, ?_, ?_, ?_, ?_, ?_, ?_⟩
  · rw [s4_advance]; norm_num [s4, s4next]
  · rw [s4_dist, s4_advance]; norm_num [s4]
  · norm_num [s4next]
  · norm_num
  · norm_num [s4next]
  · norm_num

/-- Claim C4 (amended): when a step would carry the train past the current
section's boundary, the section pointer advances and the position is rebased
by subtracting the crossed section's length, but the full step duration and
the full step distance are applied — the crossing instant is interpolated
only for the progress report, not for the state update. -/
theorem C4_crossing_full_step (s : SimState) (sec : ℝ × ℝ) (rest' : List (ℝ × ℝ))
    (h1 : ¬ s.speed > maxspeed s) (h2 : ¬ s.speed + actual_accel s < 0)
    (h3 : s.posn + step_distance s > s.cursection) (hr : s.rest = sec :: rest') :
    step s = StepResult.next { t := s.t + advance s
                               prevspeed := s.prevspeed
                               cursection := s.nextsection
                               curspeed := s.nextspeed
                               nextsection := sec.1
                               nextspeed := sec.2
                               posn := s.posn - s.cursection + step_distance s
                               mode := nextmode s
                               speed := s.speed + actual_accel s * advance s
                               rest := rest' } := by
  unfold step
  rw [if_neg h1, if_neg h2, if_pos h3, hr]

/-- Claim C4 witness: the crossing rule applied at the concrete state `s4`. -/
theorem C4_witness :
    step s4 = StepResult.next { t := s4.t + advance s4
                                prevspeed := s4.prevspeed
                                cursection := s4.nextsection
                                curspeed := s4.nextspeed
                                nextsection := (0:ℝ)
                                nextspeed := (0:ℝ)
                                posn := s4.posn - s4.cursection + step_distance s4
                                mode := nextmode s4
                                speed := s4.speed + actual_accel s4 * advance s4
                                rest := [] } :=
  C4_crossing_full_step s4 ((0:ℝ), (0:ℝ)) []
    (by norm_num [s4, maxspeed, TRAINLENGTH, LINESPEED])
    (by rw [s4_accel]; norm_num [s4])
    (by rw [s4_dist]; norm_num [s4]) rfl

/-- Claim C5 counterexample: at `s5` (a Cruise-to-Brake transition at 0.5 m/s,
step duration 2) the speed projected for the end of the step is
`0.5 - 0.425*2 = -0.35 < 0`, yet the code does not truncate the step and
terminate: it continues with the train at the negative speed `-0.35` m/s,
because the halt test uses `speed + actual_accel < 0` (one second's worth of
acceleration) rather than the end-of-step projection. -/
theorem C5_counterexample :
    step s5 = StepResult.next s5next ∧
    s5.speed + actual_accel s5 * advance s5 < 0 ∧ s5next.speed < 0 := by
  refine ⟨s5_step, ?_, ?_⟩
  · rw [s5_accel, s5_advance]; norm_num [s5]
  · norm_num [s5next]

/-- Claim C5 (amended): the halt branch triggers when
`speed + actual_accel < 0` (the one-second projection, regardless of step
duration); when it does, the step terminates with a halt whose instant is
where the speed interpolated linearly from `speed` to `speed + actual_accel`
across the step reaches zero, and the position advance is truncated to that
same fraction of the step distance. -/
theorem C5_halt_rule (s : SimState) (hmax : ¬ s.speed > maxspeed s) (h0 : 0 ≤ s.speed)
    (hh : s.speed + actual_accel s < 0) :
    ∃ tq pq, step s = StepResult.halted tq pq ∧
      s.speed + actual_accel s * ((tq - s.t) / advance s) = 0 ∧
      pq = s.posn + step_distance s * ((tq - s.t) / advance s) := by
  have hadv : (0:ℝ) < advance s := advance_pos s
  have haa : actual_accel s < 0 := by linarith
  have hne : actual_accel s ≠ 0 := ne_of_lt haa
  have hfrac : (s.t + s.speed / -(actual_accel s) * advance s - s.t) / advance s
      = s.speed / -(actual_accel s) := by
    field_simp
    ring
  refine ⟨s.t + s.speed / -(actual_accel s) * advance s,
    s.posn + step_distance s * (s.speed / -(actual_accel s) * advance s) / advance s,
    ?_, ?_, ?_⟩
  · unfold step
    rw [if_neg hmax, if_pos hh]
  · rw [hfrac]
    field_simp [hne]
    ring
  · rw [hfrac]
    field_simp [hne, ne_of_gt hadv]
    ring

/-- Claim C5 witness: the halt rule applied at the concrete state `s5w`. -/
theorem C5_witness :
    ∃ tq pq, step s5w = StepResult.halted tq pq ∧
      s5w.speed + actual_accel s5w * ((tq - s5w.t) / advance s5w) = 0 ∧
      pq = s5w.posn + step_distance s5w * ((tq - s5w.t) / advance s5w) :=
  C5_halt_rule s5w (by norm_num [s5w, maxspeed, TRAINLENGTH, LINESPEED])
    (by norm_num [s5w]) (by rw [s5w_accel]; norm_num [s5w])

/-- Claim C6 counterexample: at `s6` the step's conditions for a boundary
crossing (`posn + distance > cursection`) and for a halt both hold, and the
step halts without advancing the section pointer — so crossing and halt are
not handled with crossing checked first, refuting the claim that a halt at a
boundary is treated as reaching the next section. -/
theorem C6_counterexample :
    step s6 = StepResult.halted (16/17) (849/85) ∧
    s6.posn + step_distance s6 > s6.cursection := by
  refine ⟨s6_step, ?_⟩
  rw [s6_dist]
  norm_num [s6]

/-- Claim C6 (amended): within a step the halt check is made before the
crossing check: whenever the one-second speed projection is negative (and no
derailment occurs) the step halts, regardless of whether the step distance
would cross the section boundary. -/
theorem C6_halt_checked_first (s : SimState) (hmax : ¬ s.speed > maxspeed s)
    (hh : s.speed + actual_accel s < 0) :
    ∃ tq pq, step s = StepResult.halted tq pq := by
  refine ⟨s.t + s.speed / -(actual_accel s) * advance s,
    s.posn + step_distance s * (s.speed / -(actual_accel s) * advance s) / advance s, ?_⟩
  unfold step
  rw [if_neg hmax, if_pos hh]

/-- Claim C6 witness: the halt-first rule applied at the concrete state
`s6`, whose step also satisfies the crossing condition. -/
theorem C6_witness : ∃ tq pq, step s6 = StepResult.halted tq pq :=
  C6_halt_checked_first s6 (by norm_num [s6, maxspeed, TRAINLENGTH, LINESPEED])
    (by rw [s6_accel]; norm_num [s6])

/-- Claim C9 counterexample: with the brakes fully engaged at 10 m/s the code
still assumes a ramp: it subtracts the non-zero ramp distance
`2*(10 - 0.425) = 19.15` from the distance remaining and lowers the effective
brake-start speed to `10 - 0.85 = 9.15`, refuting the claim that no ramp
distance is subtracted and no ramp adjustment is applied in Brake mode. -/
theorem C9_counterexample :
    distance_to_full_braking_power Mode.Brake 10 = 19.15 ∧ ((19.15:ℝ) ≠ 0) ∧
    speed_full_brake Mode.Brake 10 = 9.15 ∧ ((9.15:ℝ) ≠ 10) := by
  norm_num [distance_to_full_braking_power, speed_full_brake]

/-- Claim C9 (amended): when braking is already fully engaged the lookahead
inputs still include a two-second ramp adjustment — the assumed ramp distance
`2*(speed - 0.425)` is subtracted from the distance remaining and the
brake-start speed is lowered to `speed - 0.85`; moreover in Brake mode the
next-mode decision does not consult the projected boundary speed at all, it
only compares the current speed against `nextspeed + 0.85`. -/
theorem C9_brake_mode_lookahead (s : SimState) (h : s.mode = Mode.Brake) :
    speed_full_brake s.mode s.speed = s.speed - 0.85 ∧
    distance_left s = s.cursection - s.posn - 2 * (s.speed - 0.85/2) ∧
    nextmode s = (if s.speed < s.nextspeed + 0.85 then Mode.Cruise else Mode.Brake) := by
  refine ⟨?_, ?_, ?_⟩
  · rw [h]
    rfl
  · unfold distance_left
    rw [h]
    rfl
  · unfold nextmode
    rw [h, if_pos rfl]

/-- Claim C9 witness: the Brake-mode lookahead rule applied at the concrete
braking state `s9`. -/
theorem C9_witness :
    speed_full_brake s9.mode s9.speed = s9.speed - 0.85 ∧
    distance_left s9 = s9.cursection - s9.posn - 2 * (s9.speed - 0.85/2) ∧
    nextmode s9 = (if s9.speed < s9.nextspeed + 0.85 then Mode.Cruise else Mode.Brake) :=
  C9_brake_mode_lookahead s9 rfl

end

end RunningTime
